import Mathlib

/-!
Verification of the filtering-and-scoring engine of the PimPim animal
recommendation repository (`animal_recommandation_system/animal_filter.py`).

The Python engine works on pandas DataFrames; here a record set is a
`List AnimalRecord` and each DataFrame boolean-mask selection
`animals[mask]` becomes `List.filter`.  Numeric fields (ages, weights,
scores) are modelled with `ℚ`; Python `None`/`NaN` markers become
`Option`.  Dictionary criteria objects become structures whose `Option`
fields model key presence, and Python truthiness tests of the criterion
values are modelled by the `active*` helpers below.  For the sparse
`health_requirements` / `care_preferences` dictionaries, `none` models
an absent-or-falsy (empty) dictionary and `some` a truthy one.
The final `sort_values('match_score', ascending=False)` call uses the
pandas default sort kind (quicksort), whose tie order the library does
not specify — only the mergesort/stable kinds are documented as stable.
That call is therefore embedded relationally: `SortValuesDescContract`
states exactly the documented guarantee (a permutation of the rows,
sorted by descending score), and `SoftFilteringResult` relates the
inputs of `apply_soft_filtering` to its possible return values.
-/

namespace PimPim

/-- Python substring containment on character lists: `hasPref l p` is true
when `p` is a leading segment of `l`. -/
def hasPref : List Char → List Char → Bool
  | _, [] => true
  | [], _ :: _ => false
  | a :: as, b :: bs => (a == b) && hasPref as bs

/-- `hasSubList l p` is true when `p` occurs contiguously inside `l`. -/
def hasSubList : List Char → List Char → Bool
  | [], p => hasPref [] p
  | a :: as, p => hasPref (a :: as) p || hasSubList as p

/-- Python `sub in s` (substring containment) for strings. -/
def strIn (sub s : String) : Bool := hasSubList s.toList sub.toList

/-- One line of the parsed vaccination record (`{'round': .., 'date': ..}`). -/
structure VaccinationShot where
  round : Int
  date : String
deriving DecidableEq

/-- The nested `care_conditions` dictionary of a record. -/
structure CareConditions where
  region : Option String
  duration : Option Int
  pickup : Option String
  additional_conditions : Option String
  suitable_homes : Option (List String)
deriving DecidableEq

/-- The nested `health_info` dictionary of a record (only the fields the
engine reads). -/
structure HealthInfo where
  vaccination : Option (List VaccinationShot)
  medical_history : Option String
deriving DecidableEq

/-- One animal record, as produced by the preprocessing collaborator.
`none` on a nested structure models a value that is not a `dict`
(`isinstance` checks in the engine). -/
structure AnimalRecord where
  id : Option String
  name : String
  status : String
  care_type : String
  rescue_location : String
  gender : Option String
  neutered : Option Bool
  age : Option ℚ
  weight : Option ℚ
  hashtags : List String
  care_conditions : Option CareConditions
  health_info : Option HealthInfo
  behavior_traits : Option (List (String × Option Int))
  detail_link : String
deriving DecidableEq

/-- A `{min: .., max: ..}` range dictionary; `none` models an absent key. -/
structure RangeQ where
  min : Option ℚ
  max : Option ℚ
deriving DecidableEq

/-- A per-trait requirement dictionary for `behavior_traits` criteria. -/
structure TraitReq where
  min : Option Int
  max : Option Int
  exact : Option Int
deriving DecidableEq

/-- The `health_requirements` criterion dictionary.
`no_medical_history` uses `.get(.., False)` in the source, so an absent
key and `False` coincide. -/
structure HealthReqs where
  min_vaccinations : Option Int
  no_medical_history : Bool
  exclude_conditions : Option (List String)
deriving DecidableEq

/-- The `care_preferences` criterion dictionary. -/
structure CarePrefs where
  max_duration : Option Int
  pickup_method : Option String
  exclude_conditions : Option (List String)
deriving DecidableEq

/-- The sparse `filter_criteria` dictionary of `apply_filters`; a `none`
field models an absent key (or, for the two trailing dictionaries, a
falsy value). -/
structure FilterCriteria where
  region : Option (List String)
  gender : Option (List String)
  care_type : Option (List String)
  age_range : Option RangeQ
  weight_range : Option RangeQ
  neutered : Option Bool
  hashtags : Option (List String)
  suitable_homes : Option (List String)
  behavior_traits : Option (List (String × TraitReq))
  health_requirements : Option HealthReqs
  care_preferences : Option CarePrefs
deriving DecidableEq

def emptyRange : RangeQ := ⟨none, none⟩

def emptyHealthReqs : HealthReqs := ⟨none, false, none⟩

def emptyCarePrefs : CarePrefs := ⟨none, none, none⟩

/-- The `filter_criteria = {}` case: every key absent. -/
def emptyCriteria : FilterCriteria :=
  ⟨none, none, none, none, none, none, none, none, none, none, none⟩

/-- Python truthiness of an optional list value (`in` + truthy check). -/
def activeList {α : Type} (o : Option (List α)) : Bool :=
  match o with
  | some l => !l.isEmpty
  | none => false

/-- Truthiness of a `{min,max}` range dictionary: non-empty dictionary. -/
def rangeActive (r : RangeQ) : Bool := r.min.isSome || r.max.isSome

def activeRange (o : Option RangeQ) : Bool :=
  match o with
  | some r => rangeActive r
  | none => false

/-- Truthiness of an optional string (`None` and `''` are falsy). -/
def truthyStr (s : Option String) : Bool :=
  match s with
  | some s => !(s == "")
  | none => false

/-- Truthiness of an optional integer (`None` and `0` are falsy). -/
def truthyInt (d : Option Int) : Bool :=
  match d with
  | some n => !(n == 0)
  | none => false

/-- Truthiness of `health_info.get('vaccination')`. -/
def truthyVacc (v : Option (List VaccinationShot)) : Bool :=
  match v with
  | some l => !l.isEmpty
  | none => false

/-- `dict.get` on the association-list model of `behavior_traits`; an
absent key and a stored `None`/`NaN` value both yield `none`. -/
def traitLookup (ts : List (String × Option Int)) (nm : String) : Option Int :=
  match ts.find? (fun p => p.1 == nm) with
  | some p => p.2
  | none => none

/-- Row predicate of `_filter_by_region`. -/
def predRegion (regions : List String) (a : AnimalRecord) : Bool :=
  regions.contains a.rescue_location ||
    (match a.care_conditions with
     | some cc => cc.region == some "전국"
     | none => false)

/-- Row predicate of `_filter_by_gender` (`isin`; a missing value never
matches). -/
def predGender (genders : List String) (a : AnimalRecord) : Bool :=
  match a.gender with
  | some g => genders.contains g
  | none => false

/-- Row predicate of `_filter_by_care_type`. -/
def predCareType (careTypes : List String) (a : AnimalRecord) : Bool :=
  careTypes.contains a.care_type

/-- Row predicate of `_filter_by_age_range` (inclusive bounds, default
`min` 0 and `max` 100; a missing age never matches). -/
def predAgeRange (r : RangeQ) (a : AnimalRecord) : Bool :=
  match a.age with
  | some x => decide (r.min.getD 0 ≤ x) && decide (x ≤ r.max.getD 100)
  | none => false

/-- Row predicate of `_filter_by_weight_range`. -/
def predWeightRange (r : RangeQ) (a : AnimalRecord) : Bool :=
  match a.weight with
  | some x => decide (r.min.getD 0 ≤ x) && decide (x ≤ r.max.getD 100)
  | none => false

/-- Row predicate of `_filter_by_neutered` (`==` against a scalar; a
missing value never matches). -/
def predNeutered (b : Bool) (a : AnimalRecord) : Bool :=
  match a.neutered with
  | some v => v == b
  | none => false

/-- Row predicate of `_filter_by_hashtags`: OR over requested tags, each
matching by bidirectional substring containment. -/
def predHashtags (requiredTags : List String) (a : AnimalRecord) : Bool :=
  !a.hashtags.isEmpty &&
    requiredTags.any (fun tag =>
      a.hashtags.any (fun atag => strIn tag atag || strIn atag tag))

/-- Row predicate of `_filter_by_suitable_homes`. -/
def predSuitableHomes (homeTypes : List String) (a : AnimalRecord) : Bool :=
  match a.care_conditions with
  | none => false
  | some cc =>
    match cc.suitable_homes with
    | none => false
    | some homes =>
      !homes.isEmpty &&
        homeTypes.any (fun ht =>
          homes.any (fun sh => strIn ht sh || strIn sh ht))

/-- Row predicate of `_filter_by_behavior_traits`: every requested trait
whose record value is known must satisfy its `min`/`max`/`exact`
bounds; unknown values are skipped. -/
def predBehaviorTraits (reqs : List (String × TraitReq)) (a : AnimalRecord) : Bool :=
  match a.behavior_traits with
  | none => false
  | some ts =>
    reqs.all (fun p =>
      match traitLookup ts p.1 with
      | none => true
      | some v =>
        (match p.2.min with
         | some m => decide (m ≤ v)
         | none => true) &&
        (match p.2.max with
         | some m => decide (v ≤ m)
         | none => true) &&
        (match p.2.exact with
         | some e => v == e
         | none => true))

/-- Row predicate of `_filter_by_health_requirements`. -/
def predHealthRequirements (hr : HealthReqs) (a : AnimalRecord) : Bool :=
  match a.health_info with
  | none => false
  | some h =>
    (match hr.min_vaccinations with
     | some n =>
       if truthyVacc h.vaccination then
         decide (n ≤ ((h.vaccination.getD []).length : Int))
       else true
     | none => true) &&
    (!(hr.no_medical_history && truthyStr h.medical_history)) &&
    (match hr.exclude_conditions with
     | some conds =>
       if truthyStr h.medical_history then
         !conds.any (fun c =>
           strIn c.toLower (h.medical_history.getD "").toLower)
       else true
     | none => true)

/-- Row predicate of `_filter_by_care_preferences`. -/
def predCarePreferences (cp : CarePrefs) (a : AnimalRecord) : Bool :=
  match a.care_conditions with
  | none => false
  | some cc =>
    (match cp.max_duration with
     | some m =>
       if truthyInt cc.duration then decide (cc.duration.getD 0 ≤ m) else true
     | none => true) &&
    (match cp.pickup_method with
     | some pm =>
       if truthyStr cc.pickup then strIn pm (cc.pickup.getD "") else true
     | none => true) &&
    (match cp.exclude_conditions with
     | some conds =>
       if truthyStr cc.additional_conditions then
         !conds.any (fun c =>
           strIn c.toLower (cc.additional_conditions.getD "").toLower)
       else true
     | none => true)

def filterByRegion (animals : List AnimalRecord) (regions : List String) :
    List AnimalRecord :=
  animals.filter (predRegion regions)

def filterByGender (animals : List AnimalRecord) (genders : List String) :
    List AnimalRecord :=
  animals.filter (predGender genders)

def filterByCareType (animals : List AnimalRecord) (careTypes : List String) :
    List AnimalRecord :=
  animals.filter (predCareType careTypes)

def filterByAgeRange (animals : List AnimalRecord) (r : RangeQ) :
    List AnimalRecord :=
  animals.filter (predAgeRange r)

def filterByWeightRange (animals : List AnimalRecord) (r : RangeQ) :
    List AnimalRecord :=
  animals.filter (predWeightRange r)

def filterByNeutered (animals : List AnimalRecord) (b : Bool) :
    List AnimalRecord :=
  animals.filter (predNeutered b)

def filterByHashtags (animals : List AnimalRecord) (tags : List String) :
    List AnimalRecord :=
  animals.filter (predHashtags tags)

def filterBySuitableHomes (animals : List AnimalRecord) (homeTypes : List String) :
    List AnimalRecord :=
  animals.filter (predSuitableHomes homeTypes)

def filterByBehaviorTraits (animals : List AnimalRecord)
    (reqs : List (String × TraitReq)) : List AnimalRecord :=
  animals.filter (predBehaviorTraits reqs)

def filterByHealthRequirements (animals : List AnimalRecord) (hr : HealthReqs) :
    List AnimalRecord :=
  animals.filter (predHealthRequirements hr)

def filterByCarePreferences (animals : List AnimalRecord) (cp : CarePrefs) :
    List AnimalRecord :=
  animals.filter (predCarePreferences cp)

/-- `AnimalFilter.apply_filters`: the status pre-filter followed by the
conditional criterion filters, in source order. -/
def applyFilters (animals : List AnimalRecord) (fc : FilterCriteria) :
    List AnimalRecord :=
  if animals.isEmpty then []
  else
    let results := animals.filter (fun a => a.status == "임보가능")
    let results :=
      if activeList fc.region then filterByRegion results (fc.region.getD [])
      else results
    let results :=
      if activeList fc.gender then filterByGender results (fc.gender.getD [])
      else results
    let results :=
      if activeList fc.care_type then
        filterByCareType results (fc.care_type.getD [])
      else results
    let results :=
      if activeRange fc.age_range then
        filterByAgeRange results (fc.age_range.getD emptyRange)
      else results
    let results :=
      if activeRange fc.weight_range then
        filterByWeightRange results (fc.weight_range.getD emptyRange)
      else results
    let results :=
      if fc.neutered.isSome then
        filterByNeutered results (fc.neutered.getD false)
      else results
    let results :=
      if activeList fc.hashtags then
        filterByHashtags results (fc.hashtags.getD [])
      else results
    let results :=
      if activeList fc.suitable_homes then
        filterBySuitableHomes results (fc.suitable_homes.getD [])
      else results
    let results :=
      if activeList fc.behavior_traits then
        filterByBehaviorTraits results (fc.behavior_traits.getD [])
      else results
    let results :=
      if fc.health_requirements.isSome then
        filterByHealthRequirements results
          (fc.health_requirements.getD emptyHealthReqs)
      else results
    let results :=
      if fc.care_preferences.isSome then
        filterByCarePreferences results (fc.care_preferences.getD emptyCarePrefs)
      else results
    results

/-- Normal form of the filter pipeline: one conjunction per record,
nested in the order the `filter_filter` collapse of the chain produces
(last criterion outermost, status innermost). -/
def passesFilters (fc : FilterCriteria) (a : AnimalRecord) : Bool :=
  (!fc.care_preferences.isSome ||
      predCarePreferences (fc.care_preferences.getD emptyCarePrefs) a) &&
  ((!fc.health_requirements.isSome ||
      predHealthRequirements (fc.health_requirements.getD emptyHealthReqs) a) &&
  ((!activeList fc.behavior_traits ||
      predBehaviorTraits (fc.behavior_traits.getD []) a) &&
  ((!activeList fc.suitable_homes ||
      predSuitableHomes (fc.suitable_homes.getD []) a) &&
  ((!activeList fc.hashtags || predHashtags (fc.hashtags.getD []) a) &&
  ((!fc.neutered.isSome || predNeutered (fc.neutered.getD false) a) &&
  ((!activeRange fc.weight_range ||
      predWeightRange (fc.weight_range.getD emptyRange) a) &&
  ((!activeRange fc.age_range ||
      predAgeRange (fc.age_range.getD emptyRange) a) &&
  ((!activeList fc.care_type || predCareType (fc.care_type.getD []) a) &&
  ((!activeList fc.gender || predGender (fc.gender.getD []) a) &&
  ((!activeList fc.region || predRegion (fc.region.getD []) a) &&
  (a.status == "임보가능")))))))))))

/-- A tiered preference `{preferred: {min,max}, acceptable: {min,max}}`
for the age / size scoring dimensions; `none` models an absent key
(`.get(.., {})` in the source). -/
structure TierPref where
  preferred : Option RangeQ
  acceptable : Option RangeQ
deriving DecidableEq

/-- A behaviour-trait preference `{ideal: int, acceptable: [int]}`. -/
structure BehaviorPref where
  ideal : Option Int
  acceptable : List Int
deriving DecidableEq

/-- The `weights` dictionary of a preference profile (`.get(name, 1)`). -/
structure Weights where
  region : Option ℚ
  age : Option ℚ
  size : Option ℚ
  personality : Option ℚ
  behavior : Option ℚ
deriving DecidableEq

/-- The `preferences` dictionary of `apply_soft_filtering`; an `Option`
field models key presence (the engine tests `key in preferences`). -/
structure Preferences where
  region : Option (List String)
  age_preference : Option TierPref
  size_preference : Option TierPref
  personality_traits : Option (List String)
  behavior_preferences : Option (List (String × BehaviorPref))
  weights : Weights
deriving DecidableEq

/-- Effective lower bound of an optional `{min,max}` dictionary:
`.get('min', 0)` after `.get(rangeName, {})`. -/
def rangeMinD (o : Option RangeQ) : ℚ :=
  match o with
  | some r => r.min.getD 0
  | none => 0

/-- Effective upper bound: `.get('max', 100)`. -/
def rangeMaxD (o : Option RangeQ) : ℚ :=
  match o with
  | some r => r.max.getD 100
  | none => 100

/-- `_calculate_region_score`. -/
def calculateRegionScore (a : AnimalRecord) (preferredRegions : List String) : ℚ :=
  if (match a.care_conditions with
      | some cc => cc.region == some "전국"
      | none => false) then 1
  else if preferredRegions.contains a.rescue_location then 1
  else 0

/-- `_calculate_age_score`: unknown age is neutral (0.5); otherwise the
preferred range scores 1, the acceptable range 0.7, anything else 0. -/
def calculateAgeScore (a : AnimalRecord) (agePref : TierPref) : ℚ :=
  match a.age with
  | none => 1/2
  | some age =>
    if rangeMinD agePref.preferred ≤ age ∧ age ≤ rangeMaxD agePref.preferred then 1
    else if rangeMinD agePref.acceptable ≤ age ∧ age ≤ rangeMaxD agePref.acceptable then 7/10
    else 0

/-- `_calculate_size_score` (identical tiering over the weight field). -/
def calculateSizeScore (a : AnimalRecord) (sizePref : TierPref) : ℚ :=
  match a.weight with
  | none => 1/2
  | some w =>
    if rangeMinD sizePref.preferred ≤ w ∧ w ≤ rangeMaxD sizePref.preferred then 1
    else if rangeMinD sizePref.acceptable ≤ w ∧ w ≤ rangeMaxD sizePref.acceptable then 7/10
    else 0

/-- `_calculate_personality_score`: fraction of requested traits matching
some hashtag by bidirectional substring containment; empty hashtags or
an empty request list give the neutral 0.5. -/
def calculatePersonalityScore (a : AnimalRecord) (traits : List String) : ℚ :=
  if a.hashtags.isEmpty then 1/2
  else
    let matched := traits.filter (fun t =>
      a.hashtags.any (fun tag => strIn t tag || strIn tag t))
    if traits.isEmpty then 1/2
    else (matched.length : ℚ) / (traits.length : ℚ)

/-- `abs(animal_value - ideal) if ideal is not None else 0` in the
`_calculate_behavior_score` loop. -/
def traitDistance (v : Int) (bp : BehaviorPref) : Nat :=
  match bp.ideal with
  | some i => (v - i).natAbs
  | none => 0

/-- The per-trait body of the `_calculate_behavior_score` loop: 1 for the
ideal value, 0.7 for an acceptable one, otherwise a linear decay in the
distance to the ideal (distance 0 when no ideal is given). -/
def traitContribution (v : Int) (bp : BehaviorPref) : ℚ :=
  if bp.ideal == some v then 1
  else if bp.acceptable.contains v then 7/10
  else max 0 (1 - (traitDistance v bp : ℚ) / 4)

/-- The `(total_score, valid_traits)` accumulation of
`_calculate_behavior_score`: traits unknown on the record are skipped. -/
def behaviorAccum (ts : List (String × Option Int))
    (prefs : List (String × BehaviorPref)) : ℚ × Nat :=
  prefs.foldl (fun acc p =>
    match traitLookup ts p.1 with
    | none => acc
    | some v => (acc.1 + traitContribution v p.2, acc.2 + 1)) (0, 0)

/-- `_calculate_behavior_score`. -/
def calculateBehaviorScore (a : AnimalRecord)
    (prefs : List (String × BehaviorPref)) : ℚ :=
  match a.behavior_traits with
  | none => 1/2
  | some ts =>
    if 0 < (behaviorAccum ts prefs).2 then
      (behaviorAccum ts prefs).1 / ((behaviorAccum ts prefs).2 : ℚ)
    else 1/2

/-- One step of the `_calculate_match_score` accumulation: when the
dimension is present in the profile, add `score * weight` to the total
and `weight` to the total weight. -/
def dimStep (acc : ℚ × ℚ) (present : Bool) (s w : ℚ) : ℚ × ℚ :=
  if present then (acc.1 + s * w, acc.2 + w) else acc

/-- The `(total_score, total_weight)` pair of `_calculate_match_score`,
accumulated over the five dimensions in source order. -/
def matchAccum (a : AnimalRecord) (p : Preferences) : ℚ × ℚ :=
  let w := p.weights
  let acc : ℚ × ℚ := (0, 0)
  let acc := dimStep acc p.region.isSome
    (calculateRegionScore a (p.region.getD [])) (w.region.getD 1)
  let acc := dimStep acc p.age_preference.isSome
    (calculateAgeScore a (p.age_preference.getD ⟨none, none⟩)) (w.age.getD 1)
  let acc := dimStep acc p.size_preference.isSome
    (calculateSizeScore a (p.size_preference.getD ⟨none, none⟩)) (w.size.getD 1)
  let acc := dimStep acc p.personality_traits.isSome
    (calculatePersonalityScore a (p.personality_traits.getD []))
    (w.personality.getD 1)
  let acc := dimStep acc p.behavior_preferences.isSome
    (calculateBehaviorScore a (p.behavior_preferences.getD []))
    (w.behavior.getD 1)
  acc

/-- `_calculate_match_score`: weighted average of the present dimension
scores, 0 when the total weight is not positive. -/
def calculateMatchScore (a : AnimalRecord) (p : Preferences) : ℚ :=
  if 0 < (matchAccum a p).2 then (matchAccum a p).1 / (matchAccum a p).2
  else 0

/-- The status-gated, score-annotated candidate list in input order: the
intermediate value of `apply_soft_filtering` before thresholding. -/
def scoredAvailable (animals : List AnimalRecord) (p : Preferences) :
    List (AnimalRecord × ℚ) :=
  (animals.filter (fun a => a.status == "임보가능")).map
    (fun a => (a, calculateMatchScore a p))

/-- The thresholded candidate list of `apply_soft_filtering` in input
order: the value of
`available_animals[available_animals['match_score'] >= threshold]`. -/
def thresholdedCandidates (animals : List AnimalRecord) (p : Preferences)
    (threshold : ℚ) : List (AnimalRecord × ℚ) :=
  (scoredAvailable animals p).filter (fun x => decide (threshold ≤ x.2))

/-- What `sort_values('match_score', ascending=False)` guarantees for
its result under the default sort kind (quicksort): a permutation of
the input rows that is sorted by descending match score.  The pandas
documentation lists only the mergesort/stable kinds as stable, so
nothing constrains the relative order of tied rows and the call is
embedded as this relation rather than as one concrete sort function. -/
def SortValuesDescContract (input output : List (AnimalRecord × ℚ)) : Prop :=
  output.Perm input ∧ output.Pairwise (fun x y => y.2 ≤ x.2)

/-- `AnimalFilter.apply_soft_filtering`, relationally:
`SoftFilteringResult animals p t out` holds iff `out` is a possible
return value — `[]` on an empty available set (the early return),
otherwise any list the sorting contract admits for the thresholded
candidates. -/
def SoftFilteringResult (animals : List AnimalRecord) (p : Preferences)
    (threshold : ℚ) (out : List (AnimalRecord × ℚ)) : Prop :=
  if (animals.filter (fun a => a.status == "임보가능")).isEmpty then out = []
  else SortValuesDescContract (thresholdedCandidates animals p threshold) out

/-- Non-negativity of the five effective dimension weights
(`weights.get(name, 1)` in the source). -/
def nonnegWeights (w : Weights) : Prop :=
  0 ≤ w.region.getD 1 ∧ 0 ≤ w.age.getD 1 ∧ 0 ≤ w.size.getD 1 ∧
    0 ≤ w.personality.getD 1 ∧ 0 ≤ w.behavior.getD 1

/-- `c'` is `c` with exactly one additional non-empty (truthy) criterion
field; every other field is unchanged. -/
def addsOneCriterion (c c' : FilterCriteria) : Prop :=
  (c.region = none ∧ ∃ v, v ≠ [] ∧ c' = { c with region := some v }) ∨
  (c.gender = none ∧ ∃ v, v ≠ [] ∧ c' = { c with gender := some v }) ∨
  (c.care_type = none ∧ ∃ v, v ≠ [] ∧ c' = { c with care_type := some v }) ∨
  (c.age_range = none ∧
    ∃ v, rangeActive v = true ∧ c' = { c with age_range := some v }) ∨
  (c.weight_range = none ∧
    ∃ v, rangeActive v = true ∧ c' = { c with weight_range := some v }) ∨
  (c.neutered = none ∧ ∃ v, c' = { c with neutered := some v }) ∨
  (c.hashtags = none ∧ ∃ v, v ≠ [] ∧ c' = { c with hashtags := some v }) ∨
  (c.suitable_homes = none ∧
    ∃ v, v ≠ [] ∧ c' = { c with suitable_homes := some v }) ∨
  (c.behavior_traits = none ∧
    ∃ v, v ≠ [] ∧ c' = { c with behavior_traits := some v }) ∨
  (c.health_requirements = none ∧
    ∃ v, c' = { c with health_requirements := some v }) ∨
  (c.care_preferences = none ∧ ∃ v, c' = { c with care_preferences := some v })

/-- Sample nested care conditions (mirrors the source's demo record). -/
def sampleCareConditions : CareConditions :=
  ⟨some "전국", some 3, some "직접", none, some ["아파트"]⟩

/-- Sample health info with no vaccination data at all. -/
def sampleHealthInfo : HealthInfo := ⟨none, none⟩

/-- A status-available sample record (age 3, weight 8). -/
def sampleAnimal : AnimalRecord :=
  ⟨some "1", "테스트독", "임보가능", "일반임보", "서울", some "male", some true,
   some 3, some 8, ["애교쟁이", "사람좋아"], some sampleCareConditions,
   some sampleHealthInfo, some [("affection", some 4)], ""⟩

/-- Criteria requiring at least one vaccination and nothing else. -/
def minVaccCriteria : FilterCriteria :=
  { emptyCriteria with health_requirements := some ⟨some 1, false, none⟩ }

/-- An age-range criterion with `min` 5 strictly above `max` 1. -/
def invertedAgeCriteria : FilterCriteria :=
  { emptyCriteria with age_range := some ⟨some 5, some 1⟩ }

/-- A region-only criteria set used to exercise criterion addition. -/
def regionOnlyCriteria : FilterCriteria :=
  { emptyCriteria with region := some ["부산"] }

/-- A weight-range criterion with `min` 9 strictly above `max` 2. -/
def invertedWeightCriteria : FilterCriteria :=
  { emptyCriteria with weight_range := some ⟨some 9, some 2⟩ }

/-- The sample record with its age unknown. -/
def agelessAnimal : AnimalRecord := { sampleAnimal with age := none }

/-- A concrete age preference (preferred 2-4, acceptable 0-9). -/
def sampleTierPref : TierPref := ⟨some ⟨some 2, some 4⟩, some ⟨some 0, some 9⟩⟩

/-- A concrete preference profile with explicit non-negative weights. -/
def samplePreferences : Preferences :=
  { region := some ["서울"],
    age_preference := some sampleTierPref,
    size_preference := none,
    personality_traits := some ["애교"],
    behavior_preferences := some [("affection", ⟨some 4, [3, 5]⟩)],
    weights := ⟨some (3/2), some 1, none, some 2, some 1⟩ }

/-- A behaviour-trait preference without an `ideal` value. -/
def sampleBehaviorPref : BehaviorPref := ⟨none, [4]⟩

/-- The empty preference profile: no scoring dimension present. -/
def emptyPreferences : Preferences :=
  ⟨none, none, none, none, none, ⟨none, none, none, none, none⟩⟩

/-- A second status-available record, distinct from `sampleAnimal`. -/
def secondAnimal : AnimalRecord :=
  { sampleAnimal with name := "둘째독", id := some "2" }

/-- The input-order tie class of `sampleAnimal` and `secondAnimal` under
the empty profile (both score 0). -/
def tiedCandidates : List (AnimalRecord × ℚ) :=
  [(sampleAnimal, 0), (secondAnimal, 0)]

/-- The same tie class in reversed input order. -/
def tiedCandidatesRev : List (AnimalRecord × ℚ) :=
  [(secondAnimal, 0), (sampleAnimal, 0)]

/-- A singleton admissible soft-filtering output. -/
def singletonOut : List (AnimalRecord × ℚ) := [(sampleAnimal, 0)]

theorem stepFilter {α : Type} (b : Bool) (p : α → Bool) (l : List α) :
    (if b then l.filter p else l) = l.filter (fun a => !b || p a) := by
  cases b <;> simp

/-- The filter pipeline is one `List.filter` by the conjunction of the
status gate and the active criterion predicates. -/
theorem applyFilters_eq_filter (animals : List AnimalRecord)
    (fc : FilterCriteria) :
    applyFilters animals fc = animals.filter (passesFilters fc) := by
  cases animals with
  | nil => rfl
  | cons a l =>
    unfold applyFilters
    rw [if_neg (by simp : ¬((a :: l).isEmpty = true))]
    simp only [filterByRegion, filterByGender, filterByCareType,
      filterByAgeRange, filterByWeightRange, filterByNeutered,
      filterByHashtags, filterBySuitableHomes, filterByBehaviorTraits,
      filterByHealthRequirements, filterByCarePreferences]
    simp only [stepFilter]
    simp only [List.filter_filter]
    rfl

/-- C7: with empty criteria the hard filter returns exactly the records
whose status is the available sentinel, preserving their input order
(it is a plain `List.filter`, which keeps relative order and leaves the
surviving records unchanged). -/
theorem empty_criteria_status_gate (R : List AnimalRecord) :
    applyFilters R emptyCriteria =
      R.filter (fun a => a.status == "임보가능") := by
  rw [applyFilters_eq_filter]
  apply List.filter_congr
  intro a _
  simp [passesFilters, emptyCriteria, activeList, activeRange]

/-- C5: hard filtering is idempotent — re-applying the same criteria to
the filtered output returns it unchanged. -/
theorem apply_filters_idempotent (R : List AnimalRecord)
    (fc : FilterCriteria) :
    applyFilters (applyFilters R fc) fc = applyFilters R fc := by
  simp [applyFilters_eq_filter, List.filter_filter, Bool.and_self]

set_option maxHeartbeats 1000000 in
/-- C6: activating one additional non-empty criterion field never
increases the number of surviving records. -/
theorem apply_filters_anti_monotone (R : List AnimalRecord)
    (c c' : FilterCriteria) (h : addsOneCriterion c c') :
    (applyFilters R c').length ≤ (applyFilters R c).length := by
  rw [applyFilters_eq_filter, applyFilters_eq_filter]
  refine List.Sublist.length_le (List.monotone_filter_right R ?_)
  intro a ha
  rcases h with ⟨h0, v, hv, rfl⟩ | ⟨h0, v, hv, rfl⟩ | ⟨h0, v, hv, rfl⟩ |
    ⟨h0, v, hv, rfl⟩ | ⟨h0, v, hv, rfl⟩ | ⟨h0, v, rfl⟩ | ⟨h0, v, hv, rfl⟩ |
    ⟨h0, v, hv, rfl⟩ | ⟨h0, v, hv, rfl⟩ | ⟨h0, v, rfl⟩ | ⟨h0, v, rfl⟩ <;>
    revert ha <;>
    simp only [passesFilters, h0, activeList, activeRange, Option.isSome_none,
      Option.isSome_some, Bool.not_false, Bool.not_true, Bool.true_or,
      Bool.false_or, Bool.true_and, Bool.and_eq_true] <;>
    intro h
  · exact ⟨h.1, h.2.1, h.2.2.1, h.2.2.2.1, h.2.2.2.2.1, h.2.2.2.2.2.1,
      h.2.2.2.2.2.2.1, h.2.2.2.2.2.2.2.1, h.2.2.2.2.2.2.2.2.1,
      h.2.2.2.2.2.2.2.2.2.1, h.2.2.2.2.2.2.2.2.2.2.2⟩
  · exact ⟨h.1, h.2.1, h.2.2.1, h.2.2.2.1, h.2.2.2.2.1, h.2.2.2.2.2.1,
      h.2.2.2.2.2.2.1, h.2.2.2.2.2.2.2.1, h.2.2.2.2.2.2.2.2.1,
      h.2.2.2.2.2.2.2.2.2.2⟩
  · exact ⟨h.1, h.2.1, h.2.2.1, h.2.2.2.1, h.2.2.2.2.1, h.2.2.2.2.2.1,
      h.2.2.2.2.2.2.1, h.2.2.2.2.2.2.2.1, h.2.2.2.2.2.2.2.2.2⟩
  · exact ⟨h.1, h.2.1, h.2.2.1, h.2.2.2.1, h.2.2.2.2.1, h.2.2.2.2.2.1,
      h.2.2.2.2.2.2.1, h.2.2.2.2.2.2.2.2⟩
  · exact ⟨h.1, h.2.1, h.2.2.1, h.2.2.2.1, h.2.2.2.2.1, h.2.2.2.2.2.1,
      h.2.2.2.2.2.2.2⟩
  · exact ⟨h.1, h.2.1, h.2.2.1, h.2.2.2.1, h.2.2.2.2.1, h.2.2.2.2.2.2⟩
  · exact ⟨h.1, h.2.1, h.2.2.1, h.2.2.2.1, h.2.2.2.2.2⟩
  · exact ⟨h.1, h.2.1, h.2.2.1, h.2.2.2.2⟩
  · exact ⟨h.1, h.2.1, h.2.2.2⟩
  · exact ⟨h.1, h.2.2⟩
  · exact h.2

/-- Witness for C6: adding a region criterion to the empty criteria. -/
theorem apply_filters_anti_monotone_witness :
    addsOneCriterion emptyCriteria regionOnlyCriteria ∧
      (applyFilters [sampleAnimal] regionOnlyCriteria).length ≤
        (applyFilters [sampleAnimal] emptyCriteria).length := by
  have h : addsOneCriterion emptyCriteria regionOnlyCriteria :=
    Or.inl ⟨rfl, ["부산"], by simp, rfl⟩
  exact ⟨h, apply_filters_anti_monotone [sampleAnimal] emptyCriteria
    regionOnlyCriteria h⟩

/-- C2 counterexample: `sampleAnimal` has no vaccination records at all
(`health_info.vaccination = none`), the criteria require at least one
vaccination, yet the hard filter KEEPS the record — the source skips the
count check whenever `health_info.get('vaccination')` is falsy, so the
claim "records with none fail if required" is false on the code. -/
theorem min_vaccinations_skip_cex :
    applyFilters [sampleAnimal] minVaccCriteria = [sampleAnimal] ∧
      sampleHealthInfo.vaccination = none := by
  constructor <;> rfl

/-- C2 amended: under a criteria set whose only constraint is
`min_vaccinations = n`, a record survives the hard filter iff it is
status-available, its `health_info` is a dictionary and either its
vaccination list is absent/empty (the count check is skipped) or the
count is at least `n`. -/
theorem min_vaccinations_check_skipped (n : Int) (R : List AnimalRecord) :
    applyFilters R
        { emptyCriteria with health_requirements := some ⟨some n, false, none⟩ } =
      R.filter (fun a =>
        (match a.health_info with
         | none => false
         | some h =>
           !truthyVacc h.vaccination ||
             decide (n ≤ ((h.vaccination.getD []).length : Int))) &&
        (a.status == "임보가능")) := by
  rw [applyFilters_eq_filter]
  apply List.filter_congr
  intro a _
  simp only [passesFilters, emptyCriteria, activeList, activeRange,
    Option.isSome_none, Option.isSome_some, Bool.not_false, Bool.not_true,
    Bool.true_or, Bool.false_or, Bool.true_and, Option.getD_some,
    predHealthRequirements]
  cases a.health_info with
  | none => simp
  | some h => cases hv : truthyVacc h.vaccination <;> simp [hv]

/-- C3 counterexample: an age-range criterion with `min` 5 above `max` 1
is not rejected with an error — `applyFilters` is a total function and
silently returns the empty list, even though the (available, age 3)
record would otherwise survive. -/
theorem inverted_range_silent_empty_cex :
    applyFilters [sampleAnimal] invertedAgeCriteria = [] ∧
      applyFilters [sampleAnimal] emptyCriteria = [sampleAnimal] := by
  constructor <;> rfl

/-- C3 amended: a range criterion whose effective `min` exceeds its
effective `max` makes the range predicate unsatisfiable, so the hard
filter silently returns the empty list (no error is raised). -/
theorem inverted_range_returns_empty (R : List AnimalRecord)
    (c : FilterCriteria)
    (h : (∃ r, c.age_range = some r ∧ rangeActive r = true ∧
            r.max.getD 100 < r.min.getD 0) ∨
         (∃ r, c.weight_range = some r ∧ rangeActive r = true ∧
            r.max.getD 100 < r.min.getD 0)) :
    applyFilters R c = [] := by
  rw [applyFilters_eq_filter]
  rw [List.filter_eq_nil_iff]
  intro a _
  rcases h with ⟨r, hr, hact, hlt⟩ | ⟨r, hr, hact, hlt⟩
  · have hfalse : predAgeRange r a = false := by
      unfold predAgeRange
      cases a.age with
      | none => rfl
      | some x =>
        by_cases hx : r.min.getD 0 ≤ x
        · have hx2 : ¬(x ≤ r.max.getD 100) := by linarith
          simp [hx2]
        · simp [hx]
    simp [passesFilters, hr, activeRange, hact, hfalse]
  · have hfalse : predWeightRange r a = false := by
      unfold predWeightRange
      cases a.weight with
      | none => rfl
      | some x =>
        by_cases hx : r.min.getD 0 ≤ x
        · have hx2 : ¬(x ≤ r.max.getD 100) := by linarith
          simp [hx2]
        · simp [hx]
    simp [passesFilters, hr, activeRange, hact, hfalse]

/-- Witness for the amended C3 statement, on the inverted weight range. -/
theorem inverted_range_returns_empty_witness :
    ((∃ r, invertedWeightCriteria.age_range = some r ∧ rangeActive r = true ∧
        r.max.getD 100 < r.min.getD 0) ∨
      (∃ r, invertedWeightCriteria.weight_range = some r ∧
        rangeActive r = true ∧ r.max.getD 100 < r.min.getD 0)) ∧
    applyFilters [sampleAnimal] invertedWeightCriteria = [] := by
  have hh : (∃ r, invertedWeightCriteria.age_range = some r ∧
      rangeActive r = true ∧ r.max.getD 100 < r.min.getD 0) ∨
      (∃ r, invertedWeightCriteria.weight_range = some r ∧
        rangeActive r = true ∧ r.max.getD 100 < r.min.getD 0) :=
    Or.inr ⟨⟨some 9, some 2⟩, rfl, rfl, by norm_num⟩
  exact ⟨hh, inverted_range_returns_empty [sampleAnimal] invertedWeightCriteria hh⟩

/-- C8: a record with unknown age scores exactly 0.5 on the age
dimension, whatever the requested preferred/acceptable ranges are. -/
theorem unknown_age_neutral_score (a : AnimalRecord) (pref : TierPref)
    (h : a.age = none) : calculateAgeScore a pref = 1/2 := by
  unfold calculateAgeScore
  rw [h]

/-- Witness for C8 on a concrete ageless record and preference. -/
theorem unknown_age_neutral_score_witness :
    agelessAnimal.age = none ∧
      calculateAgeScore agelessAnimal sampleTierPref = 1/2 :=
  ⟨rfl, unknown_age_neutral_score agelessAnimal sampleTierPref rfl⟩

theorem calculateRegionScore_bounds (a : AnimalRecord) (rs : List String) :
    0 ≤ calculateRegionScore a rs ∧ calculateRegionScore a rs ≤ 1 := by
  unfold calculateRegionScore
  split_ifs <;> norm_num

theorem calculateAgeScore_bounds (a : AnimalRecord) (pref : TierPref) :
    0 ≤ calculateAgeScore a pref ∧ calculateAgeScore a pref ≤ 1 := by
  unfold calculateAgeScore
  cases a.age with
  | none => norm_num
  | some x =>
    dsimp only
    split_ifs <;> norm_num

theorem calculateSizeScore_bounds (a : AnimalRecord) (pref : TierPref) :
    0 ≤ calculateSizeScore a pref ∧ calculateSizeScore a pref ≤ 1 := by
  unfold calculateSizeScore
  cases a.weight with
  | none => norm_num
  | some x =>
    dsimp only
    split_ifs <;> norm_num

theorem calculatePersonalityScore_bounds (a : AnimalRecord)
    (traits : List String) :
    0 ≤ calculatePersonalityScore a traits ∧
      calculatePersonalityScore a traits ≤ 1 := by
  unfold calculatePersonalityScore
  split_ifs with h1 h2
  · norm_num
  · norm_num
  · have hne : traits ≠ [] := fun hh => h2 (by simp [hh])
    have hpos : (0 : ℚ) < (traits.length : ℚ) := by
      exact_mod_cast List.length_pos.mpr hne
    constructor
    · exact div_nonneg (by positivity) hpos.le
    · rw [div_le_one hpos]
      exact_mod_cast List.length_filter_le _ _

theorem traitContribution_bounds (v : Int) (bp : BehaviorPref) :
    0 ≤ traitContribution v bp ∧ traitContribution v bp ≤ 1 := by
  unfold traitContribution
  split_ifs
  · norm_num
  · norm_num
  · constructor
    · exact le_max_left 0 _
    · refine max_le (by norm_num) ?_
      have hd : (0 : ℚ) ≤ ((traitDistance v bp : Nat) : ℚ) := by positivity
      have : (0 : ℚ) ≤ ((traitDistance v bp : Nat) : ℚ) / 4 := by positivity
      linarith

theorem behaviorFold_bounds (ts : List (String × Option Int))
    (prefs : List (String × BehaviorPref)) (init : ℚ × Nat)
    (h1 : 0 ≤ init.1) (h2 : init.1 ≤ (init.2 : ℚ)) :
    0 ≤ (prefs.foldl (fun acc p =>
        match traitLookup ts p.1 with
        | none => acc
        | some v => (acc.1 + traitContribution v p.2, acc.2 + 1)) init).1 ∧
      (prefs.foldl (fun acc p =>
        match traitLookup ts p.1 with
        | none => acc
        | some v => (acc.1 + traitContribution v p.2, acc.2 + 1)) init).1 ≤
      ((prefs.foldl (fun acc p =>
        match traitLookup ts p.1 with
        | none => acc
        | some v => (acc.1 + traitContribution v p.2, acc.2 + 1)) init).2 : ℚ) := by
  induction prefs generalizing init with
  | nil => exact ⟨h1, h2⟩
  | cons p rest ih =>
    simp only [List.foldl_cons]
    cases hl : traitLookup ts p.1 with
    | none => exact ih init h1 h2
    | some v =>
      refine ih (init.1 + traitContribution v p.2, init.2 + 1) ?_ ?_
      · exact add_nonneg h1 (traitContribution_bounds v p.2).1
      · show init.1 + traitContribution v p.2 ≤ ((init.2 + 1 : Nat) : ℚ)
        push_cast
        exact add_le_add h2 (traitContribution_bounds v p.2).2

theorem behaviorAccum_bounds (ts : List (String × Option Int))
    (prefs : List (String × BehaviorPref)) :
    0 ≤ (behaviorAccum ts prefs).1 ∧
      (behaviorAccum ts prefs).1 ≤ ((behaviorAccum ts prefs).2 : ℚ) :=
  behaviorFold_bounds ts prefs (0, 0) (le_refl 0) (by norm_num)

theorem calculateBehaviorScore_bounds (a : AnimalRecord)
    (prefs : List (String × BehaviorPref)) :
    0 ≤ calculateBehaviorScore a prefs ∧
      calculateBehaviorScore a prefs ≤ 1 := by
  unfold calculateBehaviorScore
  cases a.behavior_traits with
  | none => norm_num
  | some ts =>
    dsimp only
    have h := behaviorAccum_bounds ts prefs
    by_cases hp : 0 < (behaviorAccum ts prefs).2
    · have hpq : (0 : ℚ) < ((behaviorAccum ts prefs).2 : ℚ) := by
        exact_mod_cast hp
      rw [if_pos hp]
      exact ⟨div_nonneg h.1 hpq.le, (div_le_one hpq).mpr h.2⟩
    · rw [if_neg hp]
      norm_num

theorem dimStep_bounds (present : Bool) {acc : ℚ × ℚ} {s w : ℚ}
    (hacc : 0 ≤ acc.1 ∧ acc.1 ≤ acc.2) (hs : 0 ≤ s ∧ s ≤ 1) (hw : 0 ≤ w) :
    0 ≤ (dimStep acc present s w).1 ∧
      (dimStep acc present s w).1 ≤ (dimStep acc present s w).2 := by
  cases present with
  | false => simpa [dimStep] using hacc
  | true =>
    simp only [dimStep, if_true]
    exact ⟨add_nonneg hacc.1 (mul_nonneg hs.1 hw),
      add_le_add hacc.2 (mul_le_of_le_one_left hw hs.2)⟩

theorem matchAccum_bounds (a : AnimalRecord) (p : Preferences)
    (hw : nonnegWeights p.weights) :
    0 ≤ (matchAccum a p).1 ∧ (matchAccum a p).1 ≤ (matchAccum a p).2 := by
  obtain ⟨w1, w2, w3, w4, w5⟩ := hw
  unfold matchAccum
  exact dimStep_bounds _
    (dimStep_bounds _
      (dimStep_bounds _
        (dimStep_bounds _
          (dimStep_bounds _ ⟨le_refl 0, le_refl 0⟩
            (calculateRegionScore_bounds a _) w1)
          (calculateAgeScore_bounds a _) w2)
        (calculateSizeScore_bounds a _) w3)
      (calculatePersonalityScore_bounds a _) w4)
    (calculateBehaviorScore_bounds a _) w5

/-- C4: with non-negative weights the match score lies in [0, 1], and it
is exactly 0 when the total weight of the present dimensions is 0. -/
theorem match_score_bounds (a : AnimalRecord) (p : Preferences)
    (hw : nonnegWeights p.weights) :
    0 ≤ calculateMatchScore a p ∧ calculateMatchScore a p ≤ 1 ∧
      ((matchAccum a p).2 = 0 → calculateMatchScore a p = 0) := by
  have h := matchAccum_bounds a p hw
  unfold calculateMatchScore
  by_cases hp : 0 < (matchAccum a p).2
  · refine ⟨?_, ?_, fun h0 => absurd (h0 ▸ hp) (lt_irrefl 0)⟩
    · rw [if_pos hp]
      exact div_nonneg h.1 hp.le
    · rw [if_pos hp]
      exact (div_le_one hp).mpr h.2
  · rw [if_neg hp]
    exact ⟨le_refl 0, by norm_num, fun _ => rfl⟩

/-- Witness for C4 on the sample record and preference profile. -/
theorem match_score_bounds_witness :
    nonnegWeights samplePreferences.weights ∧
      (0 ≤ calculateMatchScore sampleAnimal samplePreferences ∧
        calculateMatchScore sampleAnimal samplePreferences ≤ 1 ∧
        ((matchAccum sampleAnimal samplePreferences).2 = 0 →
          calculateMatchScore sampleAnimal samplePreferences = 0)) := by
  have hw : nonnegWeights samplePreferences.weights := by
    refine ⟨?_, ?_, ?_, ?_, ?_⟩ <;> norm_num [samplePreferences]
  exact ⟨hw, match_score_bounds sampleAnimal samplePreferences hw⟩

/-- C10: a trait preference without an `ideal` value gives a record
whose trait value is present but outside `acceptable` the full score 1
(the distance term is 0 when ideal is absent), and the trait is counted
in the denominator (`valid_traits`). -/
theorem behavior_no_ideal_full_contribution (v : Int) (bp : BehaviorPref)
    (h1 : bp.ideal = none) (h2 : v ∉ bp.acceptable) :
    traitContribution v bp = 1 ∧
      ∀ (nm : String) (ts : List (String × Option Int)),
        traitLookup ts nm = some v → behaviorAccum ts [(nm, bp)] = (1, 1) := by
  have hc : traitContribution v bp = 1 := by
    unfold traitContribution traitDistance
    rw [h1]
    have hb : bp.acceptable.contains v = false := by simpa using h2
    simp [hb, h2]
  refine ⟨hc, fun nm ts hl => ?_⟩
  unfold behaviorAccum
  simp only [List.foldl_cons, List.foldl_nil, hl, hc]
  norm_num

/-- Witness for C10 on a concrete trait value and preference. -/
theorem behavior_no_ideal_full_contribution_witness :
    sampleBehaviorPref.ideal = none ∧
      (2 : Int) ∉ sampleBehaviorPref.acceptable ∧
      traitContribution 2 sampleBehaviorPref = 1 ∧
      behaviorAccum [("affection", some 2)] [("affection", sampleBehaviorPref)] =
        (1, 1) := by
  have h1 : sampleBehaviorPref.ideal = none := rfl
  have h2 : (2 : Int) ∉ sampleBehaviorPref.acceptable := by decide
  have h := behavior_no_ideal_full_contribution 2 sampleBehaviorPref h1 h2
  exact ⟨h1, h2, h.1, h.2 "affection" [("affection", some 2)] rfl⟩

/-- C1 counterexample: two status-available records tie at match score
0 under the empty profile; the list holding them in REVERSED input
order satisfies everything the code guarantees for the result of
`apply_soft_filtering` (it is a permutation of the thresholded
candidates and is sorted descending), yet it differs from the
input-order candidate list — so the claimed stable tie-break by
original input order is not a property of the code, whose sort kind
(the pandas default quicksort) is documented as not stable. -/
theorem soft_sort_unstable_ties_cex :
    SoftFilteringResult [sampleAnimal, secondAnimal] emptyPreferences 0
        tiedCandidatesRev ∧
      tiedCandidatesRev ≠
        thresholdedCandidates [sampleAnimal, secondAnimal] emptyPreferences 0 := by
  constructor
  · unfold SoftFilteringResult
    rw [if_neg (by decide)]
    constructor
    · rw [show thresholdedCandidates [sampleAnimal, secondAnimal]
          emptyPreferences 0 = tiedCandidates from rfl]
      exact List.Perm.swap _ _ _
    · refine List.Pairwise.cons ?_ (List.pairwise_singleton _ _)
      intro y hy
      rcases List.mem_singleton.mp hy with rfl
      norm_num
  · decide

/-- C1 amended: every possible result of `apply_soft_filtering` is a
permutation of the input-order thresholded candidate list — so it
contains exactly the status-available records, annotated with their
match score, whose score is at or above the threshold — and is sorted
by descending match score; the relative order of tied records is not
specified. -/
theorem soft_filtering_contract (animals : List AnimalRecord)
    (p : Preferences) (t : ℚ) (out : List (AnimalRecord × ℚ))
    (h : SoftFilteringResult animals p t out) :
    out.Perm (thresholdedCandidates animals p t) ∧
      (∀ x : AnimalRecord × ℚ, x ∈ out ↔
        (x.1 ∈ animals ∧ x.1.status = "임보가능" ∧
          x.2 = calculateMatchScore x.1 p ∧ t ≤ x.2)) ∧
      out.Pairwise (fun x y => y.2 ≤ x.2) := by
  have hps : out.Perm (thresholdedCandidates animals p t) ∧
      out.Pairwise (fun x y => y.2 ≤ x.2) := by
    unfold SoftFilteringResult at h
    by_cases hE : (animals.filter (fun a => a.status == "임보가능")).isEmpty
    · rw [if_pos hE] at h
      subst h
      have h0 : animals.filter (fun a => a.status == "임보가능") = [] := by
        simpa using hE
      refine ⟨?_, List.Pairwise.nil⟩
      unfold thresholdedCandidates scoredAvailable
      rw [h0]
      simp
    · rw [if_neg hE] at h
      exact ⟨h.1, h.2⟩
  refine ⟨hps.1, ?_, hps.2⟩
  rintro ⟨x1, x2⟩
  rw [hps.1.mem_iff]
  unfold thresholdedCandidates scoredAvailable
  constructor
  · intro hx
    obtain ⟨hx1, hx2⟩ := List.mem_filter.mp hx
    obtain ⟨a, ha, hax⟩ := List.mem_map.mp hx1
    obtain ⟨ha1, ha2⟩ := List.mem_filter.mp ha
    rw [Prod.mk.injEq] at hax
    obtain ⟨rfl, rfl⟩ := hax
    exact ⟨ha1, by simpa using ha2, rfl, by simpa using hx2⟩
  · rintro ⟨h1, h2, h3, h4⟩
    apply List.mem_filter.mpr
    refine ⟨?_, by simpa using h4⟩
    apply List.mem_map.mpr
    exact ⟨x1, List.mem_filter.mpr ⟨h1, by simpa using h2⟩, by rw [← h3]⟩

/-- Witness for the amended C1 contract on a concrete admissible
output. -/
theorem soft_filtering_contract_witness :
    SoftFilteringResult [sampleAnimal] emptyPreferences 0 singletonOut ∧
      (singletonOut.Perm
          (thresholdedCandidates [sampleAnimal] emptyPreferences 0) ∧
        (∀ x : AnimalRecord × ℚ, x ∈ singletonOut ↔
          (x.1 ∈ [sampleAnimal] ∧ x.1.status = "임보가능" ∧
            x.2 = calculateMatchScore x.1 emptyPreferences ∧ 0 ≤ x.2)) ∧
        singletonOut.Pairwise (fun x y => y.2 ≤ x.2)) := by
  have h : SoftFilteringResult [sampleAnimal] emptyPreferences 0
      singletonOut := by
    unfold SoftFilteringResult
    rw [if_neg (by decide)]
    exact ⟨by rw [show thresholdedCandidates [sampleAnimal] emptyPreferences 0 =
        singletonOut from rfl], List.pairwise_singleton _ _⟩
  exact ⟨h, soft_filtering_contract [sampleAnimal] emptyPreferences 0
    singletonOut h⟩

end PimPim
